import Mathlib

/-!
Shallow embedding of `front_end/models/issues_manager/SameSiteCookieIssue.ts`
(Chromium DevTools front end): the SameSite cookie issue classifier.

JavaScript strings are modelled as lists of characters (`JSString`), so the
string operations `startsWith`, `endsWith`, `substr(0, n)` and `===` used by
the source become `List.isPrefixOf`, `List.isSuffixOf`, `List.take` and
equality of lists.  The protocol enums (`Protocol.Audits.*`) are string enums
in the generated TypeScript whose values equal their member names; they are
modelled as inductives together with their string value (`toJS`).
-/

/-- A JavaScript string, modelled as its sequence of characters. -/
abbrev JSString := List Char

/-- Coercion from a Lean string literal to the corresponding `JSString`. -/
def jstr (s : String) : JSString := s.toList

/-- JS `s.startsWith(p)`. -/
def jsStartsWith (s p : JSString) : Bool := List.isPrefixOf p s

/-- JS `s.endsWith(p)`. -/
def jsEndsWith (s p : JSString) : Bool := List.isSuffixOf p s

/-- JS `parts.join('::')` as used for issue codes. -/
def joinColons (parts : List JSString) : JSString := List.intercalate (jstr "::") parts

/-- Protocol string enum `Protocol.Audits.SameSiteCookieExclusionReason`. -/
inductive SameSiteCookieExclusionReason
  | ExcludeSameSiteUnspecifiedTreatedAsLax
  | ExcludeSameSiteNoneInsecure
  | ExcludeSameSiteLax
  | ExcludeSameSiteStrict
  | ExcludeInvalidSameParty
  deriving DecidableEq, Repr

/-- String value of an exclusion reason (the enum member's name). -/
def SameSiteCookieExclusionReason.toJS : SameSiteCookieExclusionReason → JSString
  | .ExcludeSameSiteUnspecifiedTreatedAsLax => jstr "ExcludeSameSiteUnspecifiedTreatedAsLax"
  | .ExcludeSameSiteNoneInsecure => jstr "ExcludeSameSiteNoneInsecure"
  | .ExcludeSameSiteLax => jstr "ExcludeSameSiteLax"
  | .ExcludeSameSiteStrict => jstr "ExcludeSameSiteStrict"
  | .ExcludeInvalidSameParty => jstr "ExcludeInvalidSameParty"

/-- Protocol string enum `Protocol.Audits.SameSiteCookieWarningReason`. -/
inductive SameSiteCookieWarningReason
  | WarnSameSiteUnspecifiedCrossSiteContext
  | WarnSameSiteNoneInsecure
  | WarnSameSiteUnspecifiedLaxAllowUnsafe
  | WarnSameSiteStrictLaxDowngradeStrict
  | WarnSameSiteStrictCrossDowngradeStrict
  | WarnSameSiteStrictCrossDowngradeLax
  | WarnSameSiteLaxCrossDowngradeStrict
  | WarnSameSiteLaxCrossDowngradeLax
  deriving DecidableEq, Repr

/-- String value of a warning reason (the enum member's name). -/
def SameSiteCookieWarningReason.toJS : SameSiteCookieWarningReason → JSString
  | .WarnSameSiteUnspecifiedCrossSiteContext => jstr "WarnSameSiteUnspecifiedCrossSiteContext"
  | .WarnSameSiteNoneInsecure => jstr "WarnSameSiteNoneInsecure"
  | .WarnSameSiteUnspecifiedLaxAllowUnsafe => jstr "WarnSameSiteUnspecifiedLaxAllowUnsafe"
  | .WarnSameSiteStrictLaxDowngradeStrict => jstr "WarnSameSiteStrictLaxDowngradeStrict"
  | .WarnSameSiteStrictCrossDowngradeStrict => jstr "WarnSameSiteStrictCrossDowngradeStrict"
  | .WarnSameSiteStrictCrossDowngradeLax => jstr "WarnSameSiteStrictCrossDowngradeLax"
  | .WarnSameSiteLaxCrossDowngradeStrict => jstr "WarnSameSiteLaxCrossDowngradeStrict"
  | .WarnSameSiteLaxCrossDowngradeLax => jstr "WarnSameSiteLaxCrossDowngradeLax"

/-- Protocol string enum `Protocol.Audits.SameSiteCookieOperation`. -/
inductive SameSiteCookieOperation
  | SetCookie
  | ReadCookie
  deriving DecidableEq, Repr

/-- String value of an operation (the enum member's name). -/
def SameSiteCookieOperation.toJS : SameSiteCookieOperation → JSString
  | .SetCookie => jstr "SetCookie"
  | .ReadCookie => jstr "ReadCookie"

/-- The union type `SameSiteCookieExclusionReason | SameSiteCookieWarningReason`
taken by `codeForSameSiteDetails` (TS string enums never collide because the
member names differ). -/
abbrev SameSiteReason := SameSiteCookieExclusionReason ⊕ SameSiteCookieWarningReason

/-- String value of a reason of either kind. -/
def reasonToJS : SameSiteReason → JSString
  | Sum.inl e => e.toJS
  | Sum.inr w => w.toJS

/-- Protocol type `Protocol.Audits.AffectedCookie`: `{domain, path, name}`. -/
structure AffectedCookie where
  domain : JSString
  path : JSString
  name : JSString
  deriving DecidableEq, Repr

/-- Protocol type `Protocol.Audits.AffectedRequest`; only `requestId` is used
by this module. -/
structure AffectedRequest where
  requestId : JSString
  deriving DecidableEq, Repr

/-- Protocol type `Protocol.Audits.SameSiteCookieIssueDetails`.  Optional
fields of the protocol payload are `Option`s; the two reason arrays can also
be absent at runtime (the source guards them), hence `Option (List _)`. -/
structure SameSiteCookieIssueDetails where
  cookie : Option AffectedCookie
  rawCookieLine : Option JSString
  request : Option AffectedRequest
  cookieUrl : Option JSString
  operation : SameSiteCookieOperation
  cookieExclusionReasons : Option (List SameSiteCookieExclusionReason)
  cookieWarningReasons : Option (List SameSiteCookieWarningReason)
  deriving DecidableEq, Repr

/-- The classifier's output value: class `SameSiteCookieIssue` restricted to
the state its methods read (the issue `code` passed to the base-class
constructor and the stored `issueDetails`). -/
structure SameSiteCookieIssue where
  code : JSString
  issueDetails : SameSiteCookieIssueDetails
  deriving DecidableEq, Repr

/-- Enum `IssueKind` from `Issue.ts`; only the two members referenced by
`SameSiteCookieIssue.getKind` are modelled. -/
inductive IssueKind
  | PageError
  | BreakingChange
  deriving DecidableEq, Repr

/-- Lines 112-113 of the source: `isURLSecure` is truthy iff `cookieUrl` is
present and starts with `https://` or `wss://`; `secure` is the corresponding
label. -/
def secureFromUrl (cookieUrl : Option JSString) : JSString :=
  let isURLSecure :=
    match cookieUrl with
    | some url => jsStartsWith url (jstr "https://") || jsStartsWith url (jstr "wss://")
    | none => false
  if isURLSecure then jstr "Secure" else jstr "Insecure"

/-- Lines 108-164: `SameSiteCookieIssue.codeForSameSiteDetails`.  The guard
`warningReasons && warningReasons.length > 0` treats an absent array like the
empty one, rendered here with `Option.getD []`. -/
def SameSiteCookieIssue.codeForSameSiteDetails (reason : SameSiteReason)
    (warningReasons : Option (List SameSiteCookieWarningReason))
    (operation : SameSiteCookieOperation) (cookieUrl : Option JSString) : Option JSString :=
  let secure := secureFromUrl cookieUrl
  if reason = Sum.inl .ExcludeSameSiteStrict ∨ reason = Sum.inl .ExcludeSameSiteLax ∨
      reason = Sum.inl .ExcludeSameSiteUnspecifiedTreatedAsLax then
    let ws := warningReasons.getD []
    let fromWarnings : Option JSString :=
      if 0 < ws.length then
        if SameSiteCookieWarningReason.WarnSameSiteStrictLaxDowngradeStrict ∈ ws then
          some (joinColons
            [jstr "SameSiteCookieIssue", jstr "ExcludeNavigationContextDowngrade", secure])
        else if SameSiteCookieWarningReason.WarnSameSiteStrictCrossDowngradeStrict ∈ ws ∨
            SameSiteCookieWarningReason.WarnSameSiteStrictCrossDowngradeLax ∈ ws ∨
            SameSiteCookieWarningReason.WarnSameSiteLaxCrossDowngradeStrict ∈ ws ∨
            SameSiteCookieWarningReason.WarnSameSiteLaxCrossDowngradeLax ∈ ws then
          some (joinColons
            [jstr "SameSiteCookieIssue", jstr "ExcludeContextDowngrade", operation.toJS, secure])
        else none
      else none
    match fromWarnings with
    | some code => some code
    | none =>
      if reason = Sum.inl .ExcludeSameSiteUnspecifiedTreatedAsLax then
        some (joinColons [jstr "SameSiteCookieIssue", reasonToJS reason, operation.toJS])
      else
        none
  else if reason = Sum.inr .WarnSameSiteStrictLaxDowngradeStrict then
    some (joinColons [jstr "SameSiteCookieIssue", reasonToJS reason, secure])
  else if reason = Sum.inr .WarnSameSiteStrictCrossDowngradeStrict ∨
      reason = Sum.inr .WarnSameSiteStrictCrossDowngradeLax ∨
      reason = Sum.inr .WarnSameSiteLaxCrossDowngradeLax ∨
      reason = Sum.inr .WarnSameSiteLaxCrossDowngradeStrict then
    some (joinColons [jstr "SameSiteCookieIssue", jstr "WarnCrossDowngrade", operation.toJS, secure])
  else
    some (joinColons [jstr "SameSiteCookieIssue", reasonToJS reason, operation.toJS])

/-- Lines 68-100: `SameSiteCookieIssue.createIssuesFromSameSiteDetails`.  The
push loops become `filterMap`; the guard `cookieExclusionReasons && length > 0`
and the guard on `cookieWarningReasons` are rendered with `Option.getD []`. -/
def SameSiteCookieIssue.createIssuesFromSameSiteDetails
    (sameSiteDetails : SameSiteCookieIssueDetails) : List SameSiteCookieIssue :=
  let exclusionReasons := sameSiteDetails.cookieExclusionReasons.getD []
  if 0 < exclusionReasons.length then
    exclusionReasons.filterMap (fun exclusionReason =>
      (SameSiteCookieIssue.codeForSameSiteDetails (Sum.inl exclusionReason)
          sameSiteDetails.cookieWarningReasons sameSiteDetails.operation
          sameSiteDetails.cookieUrl).map
        (fun code => { code := code, issueDetails := sameSiteDetails }))
  else
    (sameSiteDetails.cookieWarningReasons.getD []).filterMap (fun warningReason =>
      (SameSiteCookieIssue.codeForSameSiteDetails (Sum.inr warningReason) (some [])
          sameSiteDetails.operation sameSiteDetails.cookieUrl).map
        (fun code => { code := code, issueDetails := sameSiteDetails }))

/-- Lines 51-58: private method `cookieId`. -/
def SameSiteCookieIssue.cookieId (issue : SameSiteCookieIssue) : JSString :=
  match issue.issueDetails.cookie with
  | some c => c.domain ++ jstr ";" ++ c.path ++ jstr ";" ++ c.name
  | none => issue.issueDetails.rawCookieLine.getD (jstr "no-cookie-info")

/-- Line 61: the local `requestId` computed inside `primaryKey`. -/
def requestIdFor (issueDetails : SameSiteCookieIssueDetails) : JSString :=
  match issueDetails.request with
  | some r => r.requestId
  | none => jstr "no-request"

/-- Lines 60-63: `primaryKey`. -/
def SameSiteCookieIssue.primaryKey (issue : SameSiteCookieIssue) : JSString :=
  issue.code ++ jstr "-(" ++ issue.cookieId ++ jstr ")-(" ++
    requestIdFor issue.issueDetails ++ jstr ")"

/-- Lines 197-202: `getKind`; `cookieExclusionReasons?.length > 0` is false
when the array is absent. -/
def SameSiteCookieIssue.getKind (issue : SameSiteCookieIssue) : IssueKind :=
  match issue.issueDetails.cookieExclusionReasons with
  | some exclusionReasons =>
    if 0 < exclusionReasons.length then IssueKind.PageError else IssueKind.BreakingChange
  | none => IssueKind.BreakingChange

/-- Protocol type `Protocol.Audits.InspectorIssueDetails`, restricted to the
field this module reads. -/
structure InspectorIssueDetails where
  sameSiteCookieIssueDetails : Option SameSiteCookieIssueDetails
  deriving Repr

/-- Protocol type `Protocol.Audits.InspectorIssue`. -/
structure InspectorIssue where
  details : InspectorIssueDetails
  deriving Repr

/-- Lines 204-213: `fromInspectorIssue`; a missing payload logs a warning and
yields no issues. -/
def SameSiteCookieIssue.fromInspectorIssue (inspectorIssue : InspectorIssue) :
    List SameSiteCookieIssue :=
  match inspectorIssue.details.sameSiteCookieIssueDetails with
  | none => []
  | some sameSiteDetails => SameSiteCookieIssue.createIssuesFromSameSiteDetails sameSiteDetails

/-- Lines 254-269: `isSubdomainOf`; `substr(0, n)` is `List.take n`. -/
def isSubdomainOf (subdomain superdomain : JSString) : Bool :=
  if subdomain.length ≤ superdomain.length then
    subdomain == superdomain
  else if !(jsEndsWith subdomain superdomain) then
    false
  else
    jsEndsWith (subdomain.take (subdomain.length - superdomain.length)) (jstr ".")

/-- Lines 219-252: the module-level `isCausedByThirdParty`.  The top frame is
modelled by its `domainAndRegistry()` string (`none` when the frame is null);
URL parsing (`Common.ParsedURL.fromString` composed with `.domain()`, outside
this slice) is abstracted as the `parseDomain` parameter, `none` standing for
an unparseable URL.  The JS guard `!cookieUrl` is falsy both for an absent and
for an empty `cookieUrl`. -/
def isCausedByThirdParty (parseDomain : JSString → Option JSString)
    (topFrameDomainAndRegistry : Option JSString) (cookieUrl : Option JSString) : Bool :=
  match topFrameDomainAndRegistry with
  | none => true
  | some domainAndRegistry =>
    match cookieUrl with
    | none => false
    | some url =>
      if url = [] ∨ domainAndRegistry = [] then false
      else
        match parseDomain url with
        | none => false
        | some cookieDomain => !(isSubdomainOf cookieDomain domainAndRegistry)

/-- C2: `isSubdomainOf(sub, sup)` returns true iff either `len(sub) <= len(sup)`
and `sub` equals `sup` exactly, or `sub` is strictly longer, ends with `sup`,
and the character immediately preceding the matched suffix is `'.'` (rendered
as: `sub` decomposes as `t ++ "." ++ sup`); in particular
`isSubdomainOf("a.b.com", "b.com") = true`,
`isSubdomainOf("evilb.com", "b.com") = false`,
`isSubdomainOf("b.com", "b.com") = true` and
`isSubdomainOf("x.com", "b.com") = false`. -/
theorem isSubdomainOf_spec :
    (∀ sub sup : JSString,
      isSubdomainOf sub sup = true ↔
        (sub.length ≤ sup.length ∧ sub = sup) ∨
        (sup.length < sub.length ∧ jsEndsWith sub sup = true ∧
          ∃ t, sub = t ++ jstr "." ++ sup)) ∧
    isSubdomainOf (jstr "a.b.com") (jstr "b.com") = true ∧
    isSubdomainOf (jstr "evilb.com") (jstr "b.com") = false ∧
    isSubdomainOf (jstr "b.com") (jstr "b.com") = true ∧
    isSubdomainOf (jstr "x.com") (jstr "b.com") = false := by
  refine ⟨?_, by decide, by decide, by decide, by decide⟩
  intro sub sup
  unfold isSubdomainOf
  by_cases hle : sub.length ≤ sup.length
  · rw [if_pos hle]
    constructor
    · intro h
      exact Or.inl ⟨hle, by simpa [beq_iff_eq] using h⟩
    · rintro (⟨h1, h2⟩ | ⟨hlt, h2, h3⟩)
      · simpa [beq_iff_eq] using h2
      · omega
  · rw [if_neg hle]
    by_cases hsuf : jsEndsWith sub sup = true
    · simp only [hsuf, Bool.not_true, Bool.false_eq_true, if_false]
      obtain ⟨front, hfr⟩ := List.isSuffixOf_iff_suffix.mp hsuf
      subst hfr
      have hfl : (front ++ sup).length - sup.length = front.length := by
        simp [List.length_append]
      rw [hfl, List.take_left]
      have hlt0 : sup.length < (front ++ sup).length := by
        simp only [List.length_append] at hle ⊢
        omega
      constructor
      · intro h
        obtain ⟨p, hp⟩ := List.isSuffixOf_iff_suffix.mp h
        refine Or.inr ⟨hlt0, by simp [hsuf], p, ?_⟩
        rw [← hp, List.append_assoc]
      · rintro (⟨h1, h2⟩ | ⟨hlt, h2, t, ht⟩)
        · exact absurd h1 hle
        · have hassoc : front ++ sup = (t ++ jstr ".") ++ sup := by
            rw [ht, List.append_assoc]
          have hf : front = t ++ jstr "." := List.append_inj_left' hassoc rfl
          unfold jsEndsWith
          rw [List.isSuffixOf_iff_suffix]
          exact ⟨t, hf.symm⟩
    · have h0 : jsEndsWith sub sup = false := by
        revert hsuf; cases jsEndsWith sub sup <;> simp
      simp only [h0, Bool.not_false, if_true]
      constructor
      · intro h; exact absurd h (by simp)
      · rintro (⟨h1, h2⟩ | ⟨hlt, h2, h3⟩)
        · exact absurd h1 hle
        · exact h2

/-- C5: `isCausedByThirdParty` returns true when the top frame is null;
otherwise false when `cookieUrl` is absent or the top frame's registrable
domain is the empty string; otherwise false when `cookieUrl` does not parse;
otherwise the negation of `isSubdomainOf(parsedDomain, topFrameDomain)` —
stated for an arbitrary URL parser `parseDomain` standing in for
`Common.ParsedURL` (which is outside this repository slice). -/
theorem isCausedByThirdParty_spec (parseDomain : JSString → Option JSString)
    (cookieUrl : Option JSString) (dr url dom : JSString) :
    isCausedByThirdParty parseDomain none cookieUrl = true ∧
    isCausedByThirdParty parseDomain (some dr) none = false ∧
    isCausedByThirdParty parseDomain (some []) (some url) = false ∧
    (dr ≠ [] → url ≠ [] → parseDomain url = none →
      isCausedByThirdParty parseDomain (some dr) (some url) = false) ∧
    (dr ≠ [] → url ≠ [] → parseDomain url = some dom →
      isCausedByThirdParty parseDomain (some dr) (some url) = !(isSubdomainOf dom dr)) := by
  refine ⟨rfl, rfl, ?_, ?_, ?_⟩
  · simp [isCausedByThirdParty]
  · intro h1 h2 h3
    simp [isCausedByThirdParty, h1, h2, h3]
  · intro h1 h2 h3
    simp [isCausedByThirdParty, h1, h2, h3]

/-- Witness for C5 at a concrete parser, top-frame domain and cookie URL:
`x.com` is not a subdomain of `b.com`, so the issue is third-party. -/
theorem isCausedByThirdParty_spec_witness :
    ((jstr "b.com" : JSString) ≠ [] ∧ (jstr "https://x.com" : JSString) ≠ []) ∧
    isCausedByThirdParty
      (fun u => if u = jstr "https://x.com" then some (jstr "x.com") else none)
      (some (jstr "b.com")) (some (jstr "https://x.com")) = true := by
  refine ⟨by decide, ?_⟩
  have h := (isCausedByThirdParty_spec
      (fun u => if u = jstr "https://x.com" then some (jstr "x.com") else none)
      none (jstr "b.com") (jstr "https://x.com") (jstr "x.com")).2.2.2.2
      (by decide) (by decide) (by decide)
  exact h.trans (by decide)

/-- C8: a notification without a `sameSiteCookieIssueDetails` payload yields
an empty issue list (the absence of details is never fatal). -/
theorem fromInspectorIssue_missingDetails (inspectorIssue : InspectorIssue)
    (h : inspectorIssue.details.sameSiteCookieIssueDetails = none) :
    SameSiteCookieIssue.fromInspectorIssue inspectorIssue = [] := by
  simp [SameSiteCookieIssue.fromInspectorIssue, h]

/-- Witness for C8 at the concrete detail-free notification. -/
theorem fromInspectorIssue_missingDetails_witness :
    SameSiteCookieIssue.fromInspectorIssue { details := { sameSiteCookieIssueDetails := none } } = [] :=
  fromInspectorIssue_missingDetails { details := { sameSiteCookieIssueDetails := none } } rfl

/-- C3: for every reason in the Strict/Lax/UnspecifiedTreatedAsLax exclusion
trio, every operation and every cookie URL, if the warning set contains
`WarnSameSiteStrictLaxDowngradeStrict` then the resolver returns the
`ExcludeNavigationContextDowngrade` code with the secure label, regardless of
any cross-downgrade warnings also present. -/
theorem codeForSameSiteDetails_navigationDowngrade (reason : SameSiteReason)
    (hreason : reason = Sum.inl .ExcludeSameSiteStrict ∨ reason = Sum.inl .ExcludeSameSiteLax ∨
      reason = Sum.inl .ExcludeSameSiteUnspecifiedTreatedAsLax)
    (ws : List SameSiteCookieWarningReason)
    (hnav : SameSiteCookieWarningReason.WarnSameSiteStrictLaxDowngradeStrict ∈ ws)
    (operation : SameSiteCookieOperation) (cookieUrl : Option JSString) :
    SameSiteCookieIssue.codeForSameSiteDetails reason (some ws) operation cookieUrl =
      some (joinColons [jstr "SameSiteCookieIssue", jstr "ExcludeNavigationContextDowngrade",
        secureFromUrl cookieUrl]) := by
  have hlen : 0 < ws.length := List.length_pos.mpr (List.ne_nil_of_mem hnav)
  simp only [SameSiteCookieIssue.codeForSameSiteDetails, Option.getD_some]
  rw [if_pos hreason, if_pos hlen, if_pos hnav]

/-- Witness for C3: the spec's concrete example, with a cross-downgrade
warning also present. -/
theorem codeForSameSiteDetails_navigationDowngrade_witness :
    SameSiteCookieIssue.codeForSameSiteDetails (Sum.inl .ExcludeSameSiteLax)
      (some [.WarnSameSiteStrictLaxDowngradeStrict, .WarnSameSiteLaxCrossDowngradeLax])
      .SetCookie (some (jstr "https://a.com")) =
      some (jstr "SameSiteCookieIssue::ExcludeNavigationContextDowngrade::Secure") := by
  have h := codeForSameSiteDetails_navigationDowngrade (Sum.inl .ExcludeSameSiteLax)
    (Or.inr (Or.inl rfl))
    [.WarnSameSiteStrictLaxDowngradeStrict, .WarnSameSiteLaxCrossDowngradeLax]
    (by decide) .SetCookie (some (jstr "https://a.com"))
  exact h.trans (by decide)

/-- C4: with a warning set containing neither `WarnSameSiteStrictLaxDowngradeStrict`
nor any of the four cross-downgrade warnings, the resolver returns the generic
`ExcludeSameSiteUnspecifiedTreatedAsLax::{operation}` code for that reason, and
no issue at all for `ExcludeSameSiteStrict` and `ExcludeSameSiteLax`. -/
theorem codeForSameSiteDetails_uncorroborated (operation : SameSiteCookieOperation)
    (cookieUrl : Option JSString) (ws : List SameSiteCookieWarningReason)
    (h1 : SameSiteCookieWarningReason.WarnSameSiteStrictLaxDowngradeStrict ∉ ws)
    (h2 : SameSiteCookieWarningReason.WarnSameSiteStrictCrossDowngradeStrict ∉ ws)
    (h3 : SameSiteCookieWarningReason.WarnSameSiteStrictCrossDowngradeLax ∉ ws)
    (h4 : SameSiteCookieWarningReason.WarnSameSiteLaxCrossDowngradeStrict ∉ ws)
    (h5 : SameSiteCookieWarningReason.WarnSameSiteLaxCrossDowngradeLax ∉ ws) :
    SameSiteCookieIssue.codeForSameSiteDetails (Sum.inl .ExcludeSameSiteUnspecifiedTreatedAsLax)
        (some ws) operation cookieUrl =
      some (joinColons [jstr "SameSiteCookieIssue", jstr "ExcludeSameSiteUnspecifiedTreatedAsLax",
        operation.toJS]) ∧
    SameSiteCookieIssue.codeForSameSiteDetails (Sum.inl .ExcludeSameSiteStrict)
        (some ws) operation cookieUrl = none ∧
    SameSiteCookieIssue.codeForSameSiteDetails (Sum.inl .ExcludeSameSiteLax)
        (some ws) operation cookieUrl = none := by
  have hcross : ¬(SameSiteCookieWarningReason.WarnSameSiteStrictCrossDowngradeStrict ∈ ws ∨
      SameSiteCookieWarningReason.WarnSameSiteStrictCrossDowngradeLax ∈ ws ∨
      SameSiteCookieWarningReason.WarnSameSiteLaxCrossDowngradeStrict ∈ ws ∨
      SameSiteCookieWarningReason.WarnSameSiteLaxCrossDowngradeLax ∈ ws) := by
    simp only [not_or]
    exact ⟨h2, h3, h4, h5⟩
  refine ⟨?_, ?_, ?_⟩ <;>
  · simp only [SameSiteCookieIssue.codeForSameSiteDetails, Option.getD_some]
    rw [if_pos (by simp)]
    by_cases hlen : 0 < ws.length
    · rw [if_pos hlen, if_neg h1, if_neg hcross]
      simp [reasonToJS, SameSiteCookieExclusionReason.toJS]
    · rw [if_neg hlen]
      simp [reasonToJS, SameSiteCookieExclusionReason.toJS]

/-- Witness for C4 at the empty warning set: in particular
`resolveCode(ExcludeSameSiteStrict, [], ReadCookie, undefined)` is none. -/
theorem codeForSameSiteDetails_uncorroborated_witness :
    SameSiteCookieIssue.codeForSameSiteDetails (Sum.inl .ExcludeSameSiteStrict)
        (some []) .ReadCookie none = none ∧
    SameSiteCookieIssue.codeForSameSiteDetails (Sum.inl .ExcludeSameSiteUnspecifiedTreatedAsLax)
        (some []) .ReadCookie none =
      some (jstr "SameSiteCookieIssue::ExcludeSameSiteUnspecifiedTreatedAsLax::ReadCookie") := by
  have h := codeForSameSiteDetails_uncorroborated .ReadCookie none []
    (by decide) (by decide) (by decide) (by decide) (by decide)
  exact ⟨h.2.1, h.1.trans (by decide)⟩

/-- C1: for a report with a non-empty `cookieExclusionReasons` list, the
classifier output is exactly the in-order resolution of each exclusion reason
against the report's full warning set — warnings are never examined on their
own, and if every exclusion reason resolves to none the output is empty. -/
theorem createIssues_exclusionPriority (d : SameSiteCookieIssueDetails)
    (exs : List SameSiteCookieExclusionReason)
    (hex : d.cookieExclusionReasons = some exs) (hne : exs ≠ []) :
    SameSiteCookieIssue.createIssuesFromSameSiteDetails d =
      exs.filterMap (fun exclusionReason =>
        (SameSiteCookieIssue.codeForSameSiteDetails (Sum.inl exclusionReason)
            d.cookieWarningReasons d.operation d.cookieUrl).map
          (fun code => { code := code, issueDetails := d })) ∧
    ((∀ exclusionReason ∈ exs,
        SameSiteCookieIssue.codeForSameSiteDetails (Sum.inl exclusionReason)
          d.cookieWarningReasons d.operation d.cookieUrl = none) →
      SameSiteCookieIssue.createIssuesFromSameSiteDetails d = []) := by
  have hpos : 0 < exs.length := List.length_pos.mpr hne
  have hmain : SameSiteCookieIssue.createIssuesFromSameSiteDetails d =
      exs.filterMap (fun exclusionReason =>
        (SameSiteCookieIssue.codeForSameSiteDetails (Sum.inl exclusionReason)
            d.cookieWarningReasons d.operation d.cookieUrl).map
          (fun code => { code := code, issueDetails := d })) := by
    simp only [SameSiteCookieIssue.createIssuesFromSameSiteDetails, hex, Option.getD_some]
    rw [if_pos hpos]
  refine ⟨hmain, ?_⟩
  intro hall
  rw [hmain, List.filterMap_eq_nil_iff]
  intro a ha
  rw [hall a ha]
  rfl

/-- Witness for C1: a report with one uncorroborated Strict exclusion and a
warning that would have produced an issue on the warning-only branch still
produces no issue at all. -/
theorem createIssues_exclusionPriority_witness :
    SameSiteCookieIssue.createIssuesFromSameSiteDetails
      { cookie := none, rawCookieLine := none, request := none, cookieUrl := none,
        operation := .ReadCookie,
        cookieExclusionReasons := some [.ExcludeSameSiteStrict],
        cookieWarningReasons := some [.WarnSameSiteNoneInsecure] } = [] :=
  (createIssues_exclusionPriority
    { cookie := none, rawCookieLine := none, request := none, cookieUrl := none,
      operation := .ReadCookie,
      cookieExclusionReasons := some [.ExcludeSameSiteStrict],
      cookieWarningReasons := some [.WarnSameSiteNoneInsecure] }
    [.ExcludeSameSiteStrict] rfl (by decide)).2 (by decide)

/-- C7: for a report whose `cookieExclusionReasons` list is empty or absent,
the output is, in input order, one issue per warning reason whose resolution
against the empty warning set is non-none (so each warning reason's result is
independent of the other warning reasons on the report). -/
theorem createIssues_warningBranch (d : SameSiteCookieIssueDetails)
    (hex : d.cookieExclusionReasons = none ∨ d.cookieExclusionReasons = some []) :
    SameSiteCookieIssue.createIssuesFromSameSiteDetails d =
      (d.cookieWarningReasons.getD []).filterMap (fun warningReason =>
        (SameSiteCookieIssue.codeForSameSiteDetails (Sum.inr warningReason) (some [])
            d.operation d.cookieUrl).map
          (fun code => { code := code, issueDetails := d })) := by
  rcases hex with h | h <;>
    simp [SameSiteCookieIssue.createIssuesFromSameSiteDetails, h]

/-- Witness for C7: a warning-only report produces exactly its one
warning-derived issue. -/
theorem createIssues_warningBranch_witness :
    SameSiteCookieIssue.createIssuesFromSameSiteDetails
      { cookie := none, rawCookieLine := none, request := none, cookieUrl := none,
        operation := .SetCookie, cookieExclusionReasons := none,
        cookieWarningReasons := some [.WarnSameSiteNoneInsecure] } =
      [{ code := jstr "SameSiteCookieIssue::WarnSameSiteNoneInsecure::SetCookie",
         issueDetails :=
           { cookie := none, rawCookieLine := none, request := none, cookieUrl := none,
             operation := .SetCookie, cookieExclusionReasons := none,
             cookieWarningReasons := some [.WarnSameSiteNoneInsecure] } }] :=
  (createIssues_warningBranch
    { cookie := none, rawCookieLine := none, request := none, cookieUrl := none,
      operation := .SetCookie, cookieExclusionReasons := none,
      cookieWarningReasons := some [.WarnSameSiteNoneInsecure] }
    (Or.inl rfl)).trans (by decide)

/-- C6: the secure label is `"Secure"` iff the cookie URL is present and
starts with `https://` or `wss://`, and `"Insecure"` otherwise; the label
feeds the downgrade-family codes (navigation downgrade, cross downgrade),
while every warning reason outside that family resolves to the generic
`SameSiteCookieIssue::{reason}::{operation}` code with no secure suffix — in
particular `resolveCode(WarnSameSiteNoneInsecure, [], SetCookie,
"http://a.com")` is exactly
`"SameSiteCookieIssue::WarnSameSiteNoneInsecure::SetCookie"`. -/
theorem codeForSameSiteDetails_secureFlag (u : JSString) (cookieUrl : Option JSString)
    (w : SameSiteCookieWarningReason)
    (warningReasons : Option (List SameSiteCookieWarningReason))
    (operation : SameSiteCookieOperation) :
    secureFromUrl none = jstr "Insecure" ∧
    (secureFromUrl (some u) = jstr "Secure" ↔
      (jsStartsWith u (jstr "https://") = true ∨ jsStartsWith u (jstr "wss://") = true)) ∧
    (¬(jsStartsWith u (jstr "https://") = true ∨ jsStartsWith u (jstr "wss://") = true) →
      secureFromUrl (some u) = jstr "Insecure") ∧
    SameSiteCookieIssue.codeForSameSiteDetails (Sum.inr .WarnSameSiteStrictLaxDowngradeStrict)
        warningReasons operation cookieUrl =
      some (joinColons [jstr "SameSiteCookieIssue", jstr "WarnSameSiteStrictLaxDowngradeStrict",
        secureFromUrl cookieUrl]) ∧
    SameSiteCookieIssue.codeForSameSiteDetails (Sum.inr .WarnSameSiteLaxCrossDowngradeLax)
        warningReasons operation cookieUrl =
      some (joinColons [jstr "SameSiteCookieIssue", jstr "WarnCrossDowngrade", operation.toJS,
        secureFromUrl cookieUrl]) ∧
    (w ≠ .WarnSameSiteStrictLaxDowngradeStrict →
      w ≠ .WarnSameSiteStrictCrossDowngradeStrict →
      w ≠ .WarnSameSiteStrictCrossDowngradeLax →
      w ≠ .WarnSameSiteLaxCrossDowngradeStrict →
      w ≠ .WarnSameSiteLaxCrossDowngradeLax →
      SameSiteCookieIssue.codeForSameSiteDetails (Sum.inr w) warningReasons operation cookieUrl =
        some (joinColons [jstr "SameSiteCookieIssue", w.toJS, operation.toJS])) ∧
    SameSiteCookieIssue.codeForSameSiteDetails (Sum.inr .WarnSameSiteNoneInsecure)
        (some []) .SetCookie (some (jstr "http://a.com")) =
      some (jstr "SameSiteCookieIssue::WarnSameSiteNoneInsecure::SetCookie") := by
  refine ⟨rfl, ?_, ?_, ?_, ?_, ?_, by decide⟩
  · unfold secureFromUrl
    by_cases h : (jsStartsWith u (jstr "https://") || jsStartsWith u (jstr "wss://")) = true
    · simp only [h, if_true]
      simp only [Bool.or_eq_true] at h
      simp [h]
    · simp only [h, if_false]
      simp only [Bool.or_eq_true] at h
      constructor
      · intro hfalse
        exact absurd hfalse (by decide)
      · intro hcontra
        exact absurd hcontra h
  · intro h
    unfold secureFromUrl
    have hb : (jsStartsWith u (jstr "https://") || jsStartsWith u (jstr "wss://")) = false := by
      cases hh : jsStartsWith u (jstr "https://") <;> cases hw : jsStartsWith u (jstr "wss://") <;>
        simp_all
    simp [hb]
  · simp [SameSiteCookieIssue.codeForSameSiteDetails, reasonToJS,
      SameSiteCookieWarningReason.toJS]
  · simp [SameSiteCookieIssue.codeForSameSiteDetails, reasonToJS,
      SameSiteCookieWarningReason.toJS]
  · intro hw1 hw2 hw3 hw4 hw5
    simp [SameSiteCookieIssue.codeForSameSiteDetails, reasonToJS, hw1, hw2, hw3, hw4, hw5]

/-- Witness for C6: a non-downgrade warning reason resolves to the generic
code with no secure suffix even for a secure URL. -/
theorem codeForSameSiteDetails_secureFlag_witness :
    SameSiteCookieIssue.codeForSameSiteDetails (Sum.inr .WarnSameSiteUnspecifiedCrossSiteContext)
        none .ReadCookie (some (jstr "https://a.com")) =
      some (jstr "SameSiteCookieIssue::WarnSameSiteUnspecifiedCrossSiteContext::ReadCookie") := by
  have h := (codeForSameSiteDetails_secureFlag [] (some (jstr "https://a.com"))
      .WarnSameSiteUnspecifiedCrossSiteContext none .ReadCookie).2.2.2.2.2.1
    (by decide) (by decide) (by decide) (by decide) (by decide)
  exact h.trans (by decide)

/-- First issue of the C9 counterexample: raw cookie line `x)-(y`, request id
`z`. -/
def pkIssueA : SameSiteCookieIssue :=
  { code := jstr "C",
    issueDetails :=
      { cookie := none, rawCookieLine := some (jstr "x)-(y"),
        request := some { requestId := jstr "z" }, cookieUrl := none,
        operation := .ReadCookie, cookieExclusionReasons := none,
        cookieWarningReasons := none } }

/-- Second issue of the C9 counterexample: raw cookie line `x`, request id
`y)-(z`. -/
def pkIssueB : SameSiteCookieIssue :=
  { code := jstr "C",
    issueDetails :=
      { cookie := none, rawCookieLine := some (jstr "x"),
        request := some { requestId := jstr "y)-(z" }, cookieUrl := none,
        operation := .ReadCookie, cookieExclusionReasons := none,
        cookieWarningReasons := none } }

/-- C9 counterexample: two issues whose primary keys are the equal string
`C-(x)-(y)-(z)` although their cookie identities and request identities
differ, refuting the claimed "equal primary keys iff codes and identities
coincide" (the delimiter `)-(` can occur inside the identity strings). -/
theorem primaryKey_collision :
    SameSiteCookieIssue.primaryKey pkIssueA = SameSiteCookieIssue.primaryKey pkIssueB ∧
    SameSiteCookieIssue.cookieId pkIssueA ≠ SameSiteCookieIssue.cookieId pkIssueB ∧
    requestIdFor pkIssueA.issueDetails ≠ requestIdFor pkIssueB.issueDetails := by
  decide

/-- C9 (amended): `primaryKey()` is the string
`{code}-({cookieId})-({requestId})`, where `cookieId` is
`{domain};{path};{name}` when the cookie is present, else the raw cookie
line, else `no-cookie-info`, and `requestId` is the request's id when a
request is present, else `no-request`; equal (code, cookie-identity,
request-identity) triples therefore give equal primary keys, though the
converse can fail when an identity string contains the delimiter `)-(`. -/
theorem primaryKey_spec :
    (∀ issue : SameSiteCookieIssue,
      issue.primaryKey = issue.code ++ jstr "-(" ++ issue.cookieId ++ jstr ")-(" ++
        requestIdFor issue.issueDetails ++ jstr ")") ∧
    (∀ code c rawCookieLine request cookieUrl operation exReasons wReasons,
      SameSiteCookieIssue.cookieId
          { code := code,
            issueDetails :=
              { cookie := some c, rawCookieLine := rawCookieLine, request := request,
                cookieUrl := cookieUrl, operation := operation,
                cookieExclusionReasons := exReasons, cookieWarningReasons := wReasons } } =
        c.domain ++ jstr ";" ++ c.path ++ jstr ";" ++ c.name) ∧
    (∀ code rawLine request cookieUrl operation exReasons wReasons,
      SameSiteCookieIssue.cookieId
          { code := code,
            issueDetails :=
              { cookie := none, rawCookieLine := some rawLine, request := request,
                cookieUrl := cookieUrl, operation := operation,
                cookieExclusionReasons := exReasons, cookieWarningReasons := wReasons } } =
        rawLine) ∧
    (∀ code request cookieUrl operation exReasons wReasons,
      SameSiteCookieIssue.cookieId
          { code := code,
            issueDetails :=
              { cookie := none, rawCookieLine := none, request := request,
                cookieUrl := cookieUrl, operation := operation,
                cookieExclusionReasons := exReasons, cookieWarningReasons := wReasons } } =
        jstr "no-cookie-info") ∧
    (∀ cookie rawCookieLine r cookieUrl operation exReasons wReasons,
      requestIdFor
          { cookie := cookie, rawCookieLine := rawCookieLine, request := some r,
            cookieUrl := cookieUrl, operation := operation,
            cookieExclusionReasons := exReasons, cookieWarningReasons := wReasons } =
        r.requestId) ∧
    (∀ cookie rawCookieLine cookieUrl operation exReasons wReasons,
      requestIdFor
          { cookie := cookie, rawCookieLine := rawCookieLine, request := none,
            cookieUrl := cookieUrl, operation := operation,
            cookieExclusionReasons := exReasons, cookieWarningReasons := wReasons } =
        jstr "no-request") ∧
    (∀ i1 i2 : SameSiteCookieIssue, i1.code = i2.code →
      SameSiteCookieIssue.cookieId i1 = SameSiteCookieIssue.cookieId i2 →
      requestIdFor i1.issueDetails = requestIdFor i2.issueDetails →
      SameSiteCookieIssue.primaryKey i1 = SameSiteCookieIssue.primaryKey i2) := by
  refine ⟨fun issue => rfl, fun _ _ _ _ _ _ _ _ => rfl, fun _ _ _ _ _ _ _ => rfl,
    fun _ _ _ _ _ _ => rfl, fun _ _ _ _ _ _ _ => rfl, fun _ _ _ _ _ _ => rfl, ?_⟩
  intro i1 i2 hc hid hr
  unfold SameSiteCookieIssue.primaryKey
  rw [hc, hid, hr]

/-- Witness for C9 (amended): two reports differing only in a field outside
the (code, cookie-identity, request-identity) triple get the same primary
key. -/
theorem primaryKey_spec_witness :
    SameSiteCookieIssue.primaryKey
      { code := jstr "K",
        issueDetails :=
          { cookie := none, rawCookieLine := some (jstr "a=b"), request := none,
            cookieUrl := none, operation := .ReadCookie,
            cookieExclusionReasons := none, cookieWarningReasons := none } } =
    SameSiteCookieIssue.primaryKey
      { code := jstr "K",
        issueDetails :=
          { cookie := none, rawCookieLine := some (jstr "a=b"), request := none,
            cookieUrl := some (jstr "https://a.com"), operation := .SetCookie,
            cookieExclusionReasons := none, cookieWarningReasons := none } } :=
  primaryKey_spec.2.2.2.2.2.2
    { code := jstr "K",
      issueDetails :=
        { cookie := none, rawCookieLine := some (jstr "a=b"), request := none,
          cookieUrl := none, operation := .ReadCookie,
          cookieExclusionReasons := none, cookieWarningReasons := none } }
    { code := jstr "K",
      issueDetails :=
        { cookie := none, rawCookieLine := some (jstr "a=b"), request := none,
          cookieUrl := some (jstr "https://a.com"), operation := .SetCookie,
          cookieExclusionReasons := none, cookieWarningReasons := none } }
    rfl (by decide) (by decide)

/-- C10: `getKind` is `PageError` exactly when the report's
`cookieExclusionReasons` list is present and non-empty and `BreakingChange`
otherwise, and every issue the classifier produces carries the report it was
produced from, so issues from an exclusion-bearing report are `PageError` and
issues from the warning-only branch are `BreakingChange`. -/
theorem getKind_spec (issue : SameSiteCookieIssue) (d : SameSiteCookieIssueDetails) :
    (issue.getKind = IssueKind.PageError ↔
      ∃ exs, issue.issueDetails.cookieExclusionReasons = some exs ∧ exs ≠ []) ∧
    (issue.getKind = IssueKind.PageError ∨ issue.getKind = IssueKind.BreakingChange) ∧
    (∀ i ∈ SameSiteCookieIssue.createIssuesFromSameSiteDetails d, i.issueDetails = d) := by
  refine ⟨?_, ?_, ?_⟩
  · unfold SameSiteCookieIssue.getKind
    cases hexc : issue.issueDetails.cookieExclusionReasons with
    | none => simp
    | some exs =>
      dsimp only
      by_cases hlen : 0 < exs.length
      · rw [if_pos hlen]
        simp only [true_iff]
        exact ⟨exs, rfl, List.length_pos.mp hlen⟩
      · rw [if_neg hlen]
        constructor
        · intro hfalse
          exact absurd hfalse (by decide)
        · rintro ⟨exs2, heq, hne⟩
          obtain rfl : exs = exs2 := by injection heq
          exact absurd (List.length_pos.mpr hne) hlen
  · unfold SameSiteCookieIssue.getKind
    cases issue.issueDetails.cookieExclusionReasons with
    | none => exact Or.inr rfl
    | some exs =>
      dsimp only
      by_cases hlen : 0 < exs.length
      · rw [if_pos hlen]; exact Or.inl rfl
      · rw [if_neg hlen]; exact Or.inr rfl
  · intro i hi
    simp only [SameSiteCookieIssue.createIssuesFromSameSiteDetails] at hi
    split at hi <;>
    · rw [List.mem_filterMap] at hi
      obtain ⟨a, ha, hcode⟩ := hi
      rw [Option.map_eq_some'] at hcode
      obtain ⟨c, hc, hcast⟩ := hcode
      rw [← hcast]

/-- Witness for C10: a report with one resolvable exclusion reason produces an
issue classified as a page error. -/
theorem getKind_spec_witness :
    SameSiteCookieIssue.getKind
      { code := jstr "SameSiteCookieIssue::ExcludeSameSiteUnspecifiedTreatedAsLax::ReadCookie",
        issueDetails :=
          { cookie := none, rawCookieLine := none, request := none, cookieUrl := none,
            operation := .ReadCookie,
            cookieExclusionReasons := some [.ExcludeSameSiteUnspecifiedTreatedAsLax],
            cookieWarningReasons := some [] } } = IssueKind.PageError :=
  (getKind_spec
    { code := jstr "SameSiteCookieIssue::ExcludeSameSiteUnspecifiedTreatedAsLax::ReadCookie",
      issueDetails :=
        { cookie := none, rawCookieLine := none, request := none, cookieUrl := none,
          operation := .ReadCookie,
          cookieExclusionReasons := some [.ExcludeSameSiteUnspecifiedTreatedAsLax],
          cookieWarningReasons := some [] } }
    { cookie := none, rawCookieLine := none, request := none, cookieUrl := none,
      operation := .ReadCookie, cookieExclusionReasons := none,
      cookieWarningReasons := none }).1.mpr
    ⟨[.ExcludeSameSiteUnspecifiedTreatedAsLax], rfl, by decide⟩
